import Mathlib

/-!
Shallow embedding of the rule-auditor scoring engine:
`src/scoring/event_coverage.py`, `src/scoring/simulate_rule.py`,
`src/scoring/scoring.py` and `src/scoring/utils.py`.

Modelling conventions:
* Instants are integers (seconds).  Timezones are modelled as fixed
  offsets, so converting a datetime between timezones never changes the
  instant it denotes, and the local midnight of an event's date is
  carried explicitly.
* Python floats are modelled as rationals.
* The external monitoring SDK (the rule preprocessor / monitor executed
  under a `TimeTraveler`, and the holiday table) is abstracted by the
  outcome it reports: per event a success/deferred outcome for the
  coverage tracer, and for the replay driver the final contents of the
  in-memory alert repository.
-/

namespace RuleAuditor

/-- The Python substring test `pat in s`. -/
def hasSubstr (pat s : String) : Bool :=
  decide (pat.toList <:+: s.toList)

/-- Outcome of the SDK rule check for one event, as observed by the
tracer loop of `event_coverage`: either `rule_preprocessor.preprocess`
returns (and the holiday table is consulted for the event's local date),
or it raises `RuleDeferredException` with a message. -/
inductive CheckOutcome where
  | success (isHoliday : Bool)
  | deferred (reason : String)
deriving DecidableEq, Repr

/-- Whether the outcome is a `RuleDeferredException`. -/
def CheckOutcome.isDeferred : CheckOutcome → Bool
  | .success _ => false
  | .deferred _ => true

/-- One event as seen by the coverage tracer: its target name
(`event_target`), its reference time (`date_from_mtime`), the local
midnight of its date in the rule's timezone
(`datetime.combine(date_from_mtime_tzoned.date(), datetime.min.time())`,
localized), and the outcome of the SDK check at that instant. -/
structure CovEvent where
  target : String
  time : ℤ
  dayStart : ℤ
  outcome : CheckOutcome
deriving DecidableEq, Repr

/-- The rule fields the tracer reads in its deferred branch:
`rule.start_time` and `rule.end_time`, in seconds from local midnight. -/
structure CovRule where
  start_time : ℤ
  end_time : ℤ
deriving DecidableEq, Repr

/-- `EventDetail` from `src/scoring/models.py`. -/
structure EventDetail where
  file_name : String
  timestamp : ℤ
  is_covered : Bool
  is_holiday : Bool
  reason : String
deriving DecidableEq, Repr

/-- `EventCoverageMetrics` from `src/scoring/models.py`. -/
structure EventCoverageMetrics where
  total_events : ℕ
  covered_events : ℕ
  coverage_score : ℚ
  total_holiday_events : ℕ
  covered_holiday_events : ℕ
  holiday_coverage_score : ℚ
  events : List EventDetail
deriving DecidableEq, Repr

/-- English weekday name of a local midnight (`strftime("%A")`); epoch
day 0 (1970-01-01) is a Thursday. -/
def weekdayName (dayStart : ℤ) : String :=
  match (((Int.fdiv dayStart 86400) % 7 + 7) % 7).toNat with
  | 0 => "Thursday"
  | 1 => "Friday"
  | 2 => "Saturday"
  | 3 => "Sunday"
  | 4 => "Monday"
  | 5 => "Tuesday"
  | _ => "Wednesday"

/-- Loop state of the tracer in `event_coverage`: `total`, `covered`,
`num_event_in_holiday`, `num_event_in_holiday_covered` and the
accumulated `event_details`.  (The source also fills a set
`num_holidays_inrange` that no output reads; it is not represented.) -/
structure CovState where
  total : ℕ
  covered : ℕ
  num_event_in_holiday : ℕ
  num_event_in_holiday_covered : ℕ
  event_details : List EventDetail
deriving DecidableEq, Repr

/-- One iteration of the tracer loop of `event_coverage`
(src/scoring/event_coverage.py lines 49-121): increment `total`, then
branch exactly as the `try`/`except RuleDeferredException` body does. -/
def processEvent (rule : CovRule) (s : CovState) (e : CovEvent) : CovState :=
  let s := { s with total := s.total + 1 }
  match e.outcome with
  | .success isHoliday =>
      let s :=
        if isHoliday then
          { s with num_event_in_holiday_covered := s.num_event_in_holiday_covered + 1 }
        else s
      { s with covered := s.covered + 1 }
  | .deferred reason =>
      let start_time_dt := e.dayStart + rule.start_time
      let end_time_dt := e.dayStart + rule.end_time
      if hasSubstr "fall within TimeWindow" reason then
        if e.time + 7200 ≥ start_time_dt ∨ e.time + 7200 ≥ end_time_dt then
          { s with covered := s.covered + 1,
                   event_details := s.event_details ++
                     [{ file_name := e.target, timestamp := e.time,
                        is_covered := true, is_holiday := false,
                        reason := "covered within 2 hours of start/end time " ++
                          toString e.time ++ " " ++ toString start_time_dt ++
                          " " ++ toString end_time_dt }] }
        else
          { s with event_details := s.event_details ++
              [{ file_name := e.target, timestamp := e.time,
                 is_covered := false, is_holiday := false, reason := reason }] }
      else if hasSubstr "holiday" reason then
        { s with num_event_in_holiday := s.num_event_in_holiday + 1,
                 event_details := s.event_details ++
                   [{ file_name := e.target, timestamp := e.time,
                      is_covered := false, is_holiday := true, reason := reason }] }
      else if hasSubstr "fall within WeekdayWindow" reason then
        { s with event_details := s.event_details ++
            [{ file_name := e.target, timestamp := e.time,
               is_covered := false, is_holiday := false,
               reason := weekdayName e.dayStart ++ " --- " ++ reason }] }
      else
        { s with event_details := s.event_details ++
            [{ file_name := e.target, timestamp := e.time,
               is_covered := false, is_holiday := false, reason := reason }] }

/-- `event_coverage` (src/scoring/event_coverage.py lines 17-148): fold
the tracer loop over the events, apply the `num_event_in_holiday == 0`
fix-up to `1/1`, compute both scores (both `0` when `total == 0`) and
return the details sorted ascending by timestamp. -/
def event_coverage (rule : CovRule) (events : List CovEvent) : EventCoverageMetrics :=
  let s := events.foldl (processEvent rule) ⟨0, 0, 0, 0, []⟩
  let num_event_in_holiday :=
    if s.num_event_in_holiday = 0 then 1 else s.num_event_in_holiday
  let num_event_in_holiday_covered :=
    if s.num_event_in_holiday = 0 then 1 else s.num_event_in_holiday_covered
  let event_covered_score : ℚ :=
    if s.total = 0 then 0 else (s.covered : ℚ) / (s.total : ℚ) * 100
  let holiday_covered_score : ℚ :=
    if s.total = 0 then 0
    else (num_event_in_holiday_covered : ℚ) / (num_event_in_holiday : ℚ) * 100
  { total_events := s.total
    covered_events := s.covered
    coverage_score := event_covered_score
    total_holiday_events := num_event_in_holiday
    covered_holiday_events := num_event_in_holiday_covered
    holiday_coverage_score := holiday_covered_score
    events := s.event_details.insertionSort (fun a b => a.timestamp ≤ b.timestamp) }

/-- One `(update_time, severity)` transition of an alert's history. -/
structure HistEntry where
  update_time : ℤ
  severity : String
deriving DecidableEq, Repr

/-- An alert held in the in-memory alert repository at the end of a
replay run: its resource key and accumulated history. -/
structure Alert where
  resource : String
  history : List HistEntry
deriving DecidableEq, Repr

/-- `AlertDetail` from `src/scoring/models.py`. -/
structure AlertDetail where
  resource : String
  severity : String
  open_time : ℤ
  close_time : Option ℤ
  duration : Option ℚ
deriving DecidableEq, Repr

/-- `AlertMetrics` from `src/scoring/models.py`. -/
structure AlertMetrics where
  total_alerts : ℕ
  total_resources : ℕ
  open_alerts : ℕ
  open_alert_score : ℚ
  alert_duration_score : ℚ
  simulation_times : ℕ
  alerts : List AlertDetail
deriving DecidableEq, Repr

/-- `max(alert.history, key=lambda x: x['update_time'])` on a nonempty
history; Python's `max` keeps the earliest entry among ties. -/
def latestEntry (h : HistEntry) (t : List HistEntry) : HistEntry :=
  t.foldl (fun acc x => if x.update_time > acc.update_time then x else acc) h

/-- Python dict assignment `d[k] = v` on an insertion-ordered dict,
modelled as an association list. -/
def upsert (m : List (String × String)) (k v : String) : List (String × String) :=
  if m.any (fun p => decide (p.1 = k)) then
    m.map (fun p => if p.1 = k then (k, v) else p)
  else m ++ [(k, v)]

/-- `calculate_open_alert_score` (src/scoring/simulate_rule.py lines
149-184), applied to the final contents of the alert repository. -/
def calculate_open_alert_score (all_alerts : List Alert) : ℚ :=
  if all_alerts = [] then 100
  else
    let resources_with_alerts :=
      all_alerts.foldl
        (fun m alert =>
          match alert.history with
          | [] => m
          | h :: t => upsert m alert.resource (latestEntry h t).severity)
        []
    let total_resources := resources_with_alerts.length
    if total_resources = 0 then 100
    else
      let non_ok_resources :=
        (resources_with_alerts.filter (fun p => decide (p.2 ≠ "ok"))).length
      ((total_resources : ℚ) - (non_ok_resources : ℚ)) / (total_resources : ℚ) * 100

/-- Accumulator of `calculate_alert_duration`: `alert_durations`,
`alert_details`, `open_alerts` and the `resources` set (kept in
insertion order). -/
structure DurState where
  alert_durations : List (String × ℚ)
  alert_details : List AlertDetail
  open_alerts : ℕ
  resources : List String
deriving DecidableEq, Repr

/-- Python `resources.add(r)`. -/
def addResource (rs : List String) (r : String) : List String :=
  if r ∈ rs then rs else rs ++ [r]

/-- One iteration of the per-entry walk of `calculate_alert_duration`
(src/scoring/simulate_rule.py lines 217-242).  The second and third
components of the state are `current_start` and `current_severity`. -/
def stepEntry (resource : String) (st : DurState × Option ℤ × Option String)
    (entry : HistEntry) : DurState × Option ℤ × Option String :=
  let ds := st.1
  let current_start := st.2.1
  let current_severity := st.2.2
  let next : DurState × Option ℤ × Option String :=
    match current_start with
    | none =>
        if entry.severity ≠ "ok" then
          (ds, some entry.update_time, some entry.severity)
        else if resource ∈ ds.resources then (ds, none, current_severity)
        else
          ({ ds with alert_details := ds.alert_details ++
               [{ resource := resource, severity := entry.severity,
                  open_time := entry.update_time,
                  close_time := some entry.update_time, duration := some 0 }] },
           none, current_severity)
    | some t =>
        if entry.severity = "ok" then
          let duration : ℚ := ((entry.update_time - t : ℤ) : ℚ)
          ({ ds with
               alert_durations := ds.alert_durations ++ [(resource, duration)],
               alert_details := ds.alert_details ++
                 [{ resource := resource,
                    severity := current_severity.getD "",
                    open_time := t, close_time := some entry.update_time,
                    duration := some duration }] },
           none, current_severity)
        else (ds, some t, current_severity)
  ({ next.1 with resources := addResource next.1.resources resource },
   next.2.1, next.2.2)

/-- The per-alert body of `calculate_alert_duration`
(src/scoring/simulate_rule.py lines 209-257): skip empty histories, sort
the history ascending by `update_time`, walk the transitions, then emit
a still-open interval when the walk ends with `current_start` set. -/
def processAlert (ds : DurState) (alert : Alert) : DurState :=
  if alert.history = [] then ds
  else
    let history :=
      alert.history.insertionSort (fun a b => a.update_time ≤ b.update_time)
    let st := history.foldl (stepEntry alert.resource) (ds, none, none)
    let ds2 := st.1
    match st.2.1, history.getLast? with
    | some t, some latest_entry =>
        if latest_entry.severity ≠ "ok" then
          let duration : ℚ := ((latest_entry.update_time - t : ℤ) : ℚ)
          { ds2 with
              alert_durations := ds2.alert_durations ++ [(alert.resource, duration)],
              alert_details := ds2.alert_details ++
                [{ resource := alert.resource, severity := st.2.2.getD "",
                   open_time := t, close_time := none, duration := some duration }],
              open_alerts := ds2.open_alerts + 1 }
        else ds2
    | _, _ => ds2

/-- The `resource_durations` grouping dict of `calculate_alert_duration`
(src/scoring/simulate_rule.py lines 263-267), in insertion order. -/
def groupDurations (l : List (String × ℚ)) : List (String × List ℚ) :=
  l.foldl
    (fun m p =>
      if m.any (fun q => decide (q.1 = p.1)) then
        m.map (fun q => if q.1 = p.1 then (q.1, q.2 ++ [p.2]) else q)
      else m ++ [(p.1, [p.2])])
    []

/-- `calculate_alert_duration` (src/scoring/simulate_rule.py lines
187-281), returning `(duration_score, alert_details, open_alerts)`. -/
def calculate_alert_duration (all_alerts : List Alert) :
    ℚ × List AlertDetail × ℕ :=
  if all_alerts = [] then (100, [], 0)
  else
    let ds := all_alerts.foldl processAlert ⟨[], [], 0, []⟩
    if ds.alert_durations = [] then (100, ds.alert_details, 0)
    else
      let average_durations : List (String × ℚ) :=
        (groupDurations ds.alert_durations).map
          (fun p => (p.1, p.2.sum / (p.2.length : ℚ)))
      let duration_score : ℚ :=
        if (average_durations.length : ℚ) / (ds.resources.length : ℚ) > 1 / 10 then
          let snapped :=
            average_durations.map (fun p => if p.2 < 7200 then (p.1, (0 : ℚ)) else p)
          ((snapped.filter (fun p => decide (p.2 = 0))).length : ℚ) /
              (snapped.length : ℚ) * 100
        else 100
      (duration_score,
        ds.alert_details.insertionSort (fun a b => a.open_time ≤ b.open_time),
        ds.open_alerts)

/-- `test_rule` (src/scoring/simulate_rule.py lines 57-146).  The replay
loop itself runs the external monitor under a `TimeTraveler`; its
observable effect is abstracted as the final contents of the in-memory
alert repository (`repository`), the resources of the alerts the loop
collected (`produced_resources`, deduplicated by the Python `set`), and
the number of generated simulation times.  (The `rule.constraints`
patch loop of lines 102-104 compares a dict against a string and never
fires, so it is not represented.)  With an empty events list the source
returns the all-zero metrics before simulating anything. -/
def test_rule (events : List CovEvent) (repository : List Alert)
    (produced_resources : List String) (num_simulation_times : ℕ) : AlertMetrics :=
  if events = [] then
    { total_alerts := 0, total_resources := 0, open_alerts := 0,
      open_alert_score := 0, alert_duration_score := 0,
      simulation_times := 0, alerts := [] }
  else
    let open_alert_score := calculate_open_alert_score repository
    let r := calculate_alert_duration repository
    { total_alerts := produced_resources.dedup.length,
      total_resources := produced_resources.dedup.length,
      open_alerts := r.2.2,
      open_alert_score := open_alert_score,
      alert_duration_score := r.1,
      simulation_times := num_simulation_times,
      alerts := r.2.1 }

/-- `ReliabilityMetrics` from `src/scoring/models.py` (the
`execution_time` wall-clock field is not represented). -/
structure ReliabilityMetrics where
  rule_id : String
  event_coverage : EventCoverageMetrics
  alert_metrics : AlertMetrics
  final_score : ℚ
deriving DecidableEq, Repr

/-- `scoring_rule` (src/scoring/scoring.py lines 10-54): run the two
analyses on the same events and combine the four sub-scores with the
fixed weights `0.75, 0.75, 1, 0.5` over `3`. -/
def scoring_rule (rule : CovRule) (rule_id : String) (events : List CovEvent)
    (repository : List Alert) (produced_resources : List String)
    (num_simulation_times : ℕ) : ReliabilityMetrics :=
  let event_coverage_metrics := event_coverage rule events
  let alert_metrics :=
    test_rule events repository produced_resources num_simulation_times
  let final_score : ℚ :=
    (alert_metrics.alert_duration_score * (3 / 4) +
        alert_metrics.open_alert_score * (3 / 4) +
        event_coverage_metrics.coverage_score * 1 +
        event_coverage_metrics.holiday_coverage_score * (1 / 2)) / 3
  { rule_id := rule_id, event_coverage := event_coverage_metrics,
    alert_metrics := alert_metrics, final_score := final_score }

/-- The dense-fallback loop of `generate_important_simulation_times`
(src/scoring/utils.py lines 86-91):
`while current <= end_date: append current; current += step`.
The guard `0 < step` makes the loop well-founded; the source only calls
it with the positive default step `1800`. -/
def denseTimes (current end_date step : ℤ) : List ℤ :=
  if _h : current ≤ end_date ∧ 0 < step then
    current :: denseTimes (current + step) end_date step
  else []
termination_by (end_date + step - current).toNat
decreasing_by omega

/-- The rule fields read by the sparse path of the selector: the
timezone as a fixed offset, the optional daily `start_time`/`end_time`
seconds, and the `check_datetime_ranges` of the configured
`check_datetime_window`s as pairs of instants.  (The source also
computes a per-day weekday-window match flag that nothing reads; it is
not represented.) -/
structure SimRule where
  tz_offset : ℤ
  start_time : Option ℤ
  end_time : Option ℤ
  datetime_ranges : List (ℤ × ℤ)
deriving DecidableEq, Repr

/-- Local midnight (as an instant) of the local date containing `t`
under the fixed offset `off`:
`t.astimezone(rule_tz).replace(hour=0, minute=0, second=0, microsecond=0)`. -/
def localMidnight (off t : ℤ) : ℤ :=
  Int.fdiv (t + off) 86400 * 86400 - off

/-- The per-day candidate collection of the sparse path
(src/scoring/utils.py lines 119-157): for every local day up to the end
of the range, the localized daily start/end instants (when configured)
and both endpoints of every datetime range overlapping the range. -/
def dayLoop (rule : SimRule) (start_date_tz end_date_tz current : ℤ) : List ℤ :=
  if _h : current ≤ end_date_tz then
    (match rule.start_time with
     | some st => [current + st]
     | none => []) ++
    (match rule.end_time with
     | some et => [current + et]
     | none => []) ++
    ((rule.datetime_ranges.filter
        (fun p => decide (p.1 ≤ end_date_tz ∧ p.2 ≥ start_date_tz))).foldr
      (fun p acc => p.1 :: p.2 :: acc) []) ++
    dayLoop rule start_date_tz end_date_tz (current + 86400)
  else []
termination_by (end_date_tz + 86400 - current).toNat
decreasing_by omega

/-- `generate_important_simulation_times` (src/scoring/utils.py lines
67-172).  `simulation_days` is `(end_date - start_date).days`, a floor
division; in the sparse path the candidates are collected into a set
(modelled by `dedup`), event times contribute `±5` minutes, and the
result is sorted and filtered back into `[start_date, end_date]`. -/
def generate_important_simulation_times (rule : SimRule)
    (start_date end_date : ℤ) (events : List ℤ) (step : ℤ) : List ℤ :=
  let simulation_days := Int.fdiv (end_date - start_date) 86400
  let events_per_day : ℚ :=
    if simulation_days > 0 then (events.length : ℚ) / (simulation_days : ℚ)
    else (events.length : ℚ)
  if events_per_day > 30 then denseTimes start_date end_date step
  else
    let day_times :=
      dayLoop rule start_date end_date (localMidnight rule.tz_offset start_date)
    let event_times :=
      (events.filter (fun t => decide (start_date ≤ t ∧ t ≤ end_date))).foldr
        (fun t acc => (t - 300) :: (t + 300) :: acc) []
    let important_times := (day_times ++ event_times).dedup
    (important_times.insertionSort (fun a b => a ≤ b)).filter
      (fun t => decide (start_date ≤ t ∧ t ≤ end_date))

/-- The uniform grid `start, start+step, start+2*step, ...` with `n`
points; the shape of the dense fallback's result. -/
def uniformGrid (start step : ℤ) (n : ℕ) : List ℤ :=
  (List.range n).map (fun k : ℕ => start + (k : ℤ) * step)

/-- The guard of the deferred-with-holiday-reason branch of the tracer:
the reason does not contain "fall within TimeWindow" (that branch wins)
but does contain "holiday". -/
def isHolidayDeferredEvent (e : CovEvent) : Bool :=
  match e.outcome with
  | .success _ => false
  | .deferred reason =>
      !hasSubstr "fall within TimeWindow" reason && hasSubstr "holiday" reason

/-- C1 counterexample input: two checks succeed on a holiday, one check
defers with a holiday reason. -/
def c1Events : List CovEvent :=
  [{ target := "a", time := 0, dayStart := 0, outcome := .success true },
   { target := "b", time := 60, dayStart := 0, outcome := .success true },
   { target := "c", time := 120, dayStart := 0, outcome := .deferred "holiday" }]

/-- C5 scenario rule: daily check window 09:00-17:00 local time. -/
def c5Rule : CovRule := { start_time := 32400, end_time := 61200 }

/-- C5 scenario events: 08:00, 12:00 and 20:00 local on one day; the
out-of-window checks defer with the TimeWindow reason, the in-window
check succeeds. -/
def c5Events : List CovEvent :=
  [{ target := "a", time := 28800, dayStart := 0,
     outcome := .deferred "XEvent does not fall within TimeWindow" },
   { target := "b", time := 43200, dayStart := 0, outcome := .success false },
   { target := "c", time := 72000, dayStart := 0,
     outcome := .deferred "XEvent does not fall within TimeWindow" }]

/-- C8 counterexample events: 31 events, enough to force the dense
fallback on a sub-day range. -/
def c8Events : List ℤ := List.replicate 31 0

instance : IsTotal HistEntry (fun a b => a.update_time ≤ b.update_time) :=
  ⟨fun a b => le_total a.update_time b.update_time⟩

instance : IsTrans HistEntry (fun a b => a.update_time ≤ b.update_time) :=
  ⟨fun _ _ _ h1 h2 => le_trans h1 h2⟩

instance : IsTotal EventDetail (fun a b => a.timestamp ≤ b.timestamp) :=
  ⟨fun a b => le_total a.timestamp b.timestamp⟩

instance : IsTrans EventDetail (fun a b => a.timestamp ≤ b.timestamp) :=
  ⟨fun _ _ _ h1 h2 => le_trans h1 h2⟩

instance : IsTotal AlertDetail (fun a b => a.open_time ≤ b.open_time) :=
  ⟨fun a b => le_total a.open_time b.open_time⟩

instance : IsTrans AlertDetail (fun a b => a.open_time ≤ b.open_time) :=
  ⟨fun _ _ _ h1 h2 => le_trans h1 h2⟩

/-! ## Helper lemmas -/

/-- A percentage built from a nonnegative numerator is nonnegative. -/
theorem ratio_nonneg (a b : ℕ) : 0 ≤ (a : ℚ) / (b : ℚ) * 100 := by
  positivity

/-- A percentage `a/b*100` with `a ≤ b` is at most `100` (also when
`b = 0`, since then `a = 0` and division by zero yields `0`). -/
theorem ratio_le_100 (a b : ℕ) (h : a ≤ b) : (a : ℚ) / (b : ℚ) * 100 ≤ 100 := by
  rcases Nat.eq_zero_or_pos b with hb | hb
  · subst hb
    have ha : a = 0 := Nat.le_zero.mp h
    subst ha
    norm_num
  · have hb0 : (0 : ℚ) < (b : ℚ) := by exact_mod_cast hb
    have h1 : (a : ℚ) / (b : ℚ) ≤ 1 := by
      rw [div_le_one hb0]
      exact_mod_cast h
    nlinarith

/-- How one tracer iteration moves the counters: `total` always grows by
one, `covered` by at most one, one `EventDetail` is appended exactly for
deferred outcomes, and `num_event_in_holiday` grows exactly on the
holiday-deferred branch. -/
theorem processEvent_counts (rule : CovRule) (s : CovState) (e : CovEvent) :
    (processEvent rule s e).total = s.total + 1 ∧
    ((processEvent rule s e).covered = s.covered ∨
      (processEvent rule s e).covered = s.covered + 1) ∧
    (processEvent rule s e).event_details.length =
      s.event_details.length + (if e.outcome.isDeferred then 1 else 0) ∧
    (processEvent rule s e).num_event_in_holiday =
      s.num_event_in_holiday + (if isHolidayDeferredEvent e then 1 else 0) := by
  obtain ⟨tgt, tm, md, oc⟩ := e
  cases oc with
  | success ih =>
      cases ih <;>
        simp [processEvent, CheckOutcome.isDeferred, isHolidayDeferredEvent]
  | deferred rsn =>
      simp only [processEvent, CheckOutcome.isDeferred, isHolidayDeferredEvent]
      split_ifs <;> simp_all

/-- Folding the tracer keeps `covered ≤ total`. -/
theorem covState_fold_covered_le (rule : CovRule) :
    ∀ (events : List CovEvent) (s : CovState), s.covered ≤ s.total →
      (events.foldl (processEvent rule) s).covered ≤
        (events.foldl (processEvent rule) s).total := by
  intro events
  induction events with
  | nil => intro s h; simpa using h
  | cons e es ih =>
      intro s h
      rw [List.foldl_cons]
      apply ih
      obtain ⟨ht, hc, _, _⟩ := processEvent_counts rule s e
      rcases hc with hc | hc <;> omega

/-- Folding the tracer adds the number of events to `total`. -/
theorem covState_fold_total (rule : CovRule) :
    ∀ (events : List CovEvent) (s : CovState),
      (events.foldl (processEvent rule) s).total = s.total + events.length := by
  intro events
  induction events with
  | nil => intro s; simp
  | cons e es ih =>
      intro s
      rw [List.foldl_cons, ih]
      have ht := (processEvent_counts rule s e).1
      rw [ht, List.length_cons]
      omega

/-- Folding the tracer appends exactly one detail per deferred event. -/
theorem covState_fold_details_length (rule : CovRule) :
    ∀ (events : List CovEvent) (s : CovState),
      (events.foldl (processEvent rule) s).event_details.length =
        s.event_details.length +
          events.countP (fun e => e.outcome.isDeferred) := by
  intro events
  induction events with
  | nil => intro s; simp
  | cons e es ih =>
      intro s
      rw [List.foldl_cons, ih, List.countP_cons]
      have hd := (processEvent_counts rule s e).2.2.1
      rw [hd]
      omega

/-- Folding the tracer counts holiday-deferred events into
`num_event_in_holiday`. -/
theorem covState_fold_holiday (rule : CovRule) :
    ∀ (events : List CovEvent) (s : CovState),
      (events.foldl (processEvent rule) s).num_event_in_holiday =
        s.num_event_in_holiday +
          events.countP (fun e => isHolidayDeferredEvent e) := by
  intro events
  induction events with
  | nil => intro s; simp
  | cons e es ih =>
      intro s
      rw [List.foldl_cons, ih, List.countP_cons]
      have hh := (processEvent_counts rule s e).2.2.2
      rw [hh]
      omega

/-- The open-alert score always lies in `[0, 100]`. -/
theorem calculate_open_alert_score_bounds (all_alerts : List Alert) :
    0 ≤ calculate_open_alert_score all_alerts ∧
      calculate_open_alert_score all_alerts ≤ 100 := by
  simp only [calculate_open_alert_score]
  split_ifs with h1 h2
  · norm_num
  · norm_num
  · constructor
    · rw [← Nat.cast_sub (List.length_filter_le _ _)]
      exact ratio_nonneg _ _
    · rw [← Nat.cast_sub (List.length_filter_le _ _)]
      exact ratio_le_100 _ _ (Nat.sub_le _ _)

/-- The alert-duration score always lies in `[0, 100]`. -/
theorem calculate_alert_duration_score_bounds (all_alerts : List Alert) :
    0 ≤ (calculate_alert_duration all_alerts).1 ∧
      (calculate_alert_duration all_alerts).1 ≤ 100 := by
  simp only [calculate_alert_duration]
  split_ifs with h1 h2 h3
  · norm_num
  · norm_num
  · dsimp only
    constructor
    · exact ratio_nonneg _ _
    · exact ratio_le_100 _ _ (List.length_filter_le _ _)
  · norm_num

/-- The tracer's aggregate output obeys `covered ≤ total`, a coverage
score in `[0, 100]` and a nonnegative holiday score. -/
theorem event_coverage_bounds (rule : CovRule) (events : List CovEvent) :
    (event_coverage rule events).covered_events ≤
        (event_coverage rule events).total_events ∧
      0 ≤ (event_coverage rule events).coverage_score ∧
      (event_coverage rule events).coverage_score ≤ 100 ∧
      0 ≤ (event_coverage rule events).holiday_coverage_score := by
  have hct := covState_fold_covered_le rule events ⟨0, 0, 0, 0, []⟩ (le_refl 0)
  simp only [event_coverage]
  refine ⟨hct, ?_, ?_, ?_⟩
  · split_ifs with h
    · norm_num
    · exact ratio_nonneg _ _
  · split_ifs with h
    · norm_num
    · exact ratio_le_100 _ _ hct
  · split_ifs with h1 h2 <;> first | exact ratio_nonneg _ _ | norm_num

/-- The two alert sub-scores of `test_rule` lie in `[0, 100]` for every
input (including the all-zero empty-events record). -/
theorem test_rule_score_bounds (events : List CovEvent) (repository : List Alert)
    (produced_resources : List String) (num_simulation_times : ℕ) :
    0 ≤ (test_rule events repository produced_resources
          num_simulation_times).open_alert_score ∧
      (test_rule events repository produced_resources
          num_simulation_times).open_alert_score ≤ 100 ∧
      0 ≤ (test_rule events repository produced_resources
          num_simulation_times).alert_duration_score ∧
      (test_rule events repository produced_resources
          num_simulation_times).alert_duration_score ≤ 100 := by
  by_cases h : events = []
  · subst h
    simp [test_rule]
  · simp only [test_rule, if_neg h]
    obtain ⟨o1, o2⟩ := calculate_open_alert_score_bounds repository
    obtain ⟨d1, d2⟩ := calculate_alert_duration_score_bounds repository
    exact ⟨o1, o2, d1, d2⟩

/-! ## Claim theorems -/

/-- C1 (amended): in every scoring run `covered_events ≤ total_events`,
and the coverage score, open-alert score and alert-duration score all
lie in `[0, 100]`; the holiday coverage score is nonnegative but —
contrary to the claim — is not bounded by 100, because the tracer counts
checks that succeed on holidays and checks deferred for holidays into
two unrelated counters. -/
theorem C1_subscore_bounds (rule : CovRule) (rule_id : String)
    (events : List CovEvent) (repository : List Alert)
    (produced_resources : List String) (num_simulation_times : ℕ) :
    let m := scoring_rule rule rule_id events repository produced_resources
      num_simulation_times
    m.event_coverage.covered_events ≤ m.event_coverage.total_events ∧
      0 ≤ m.event_coverage.coverage_score ∧
      m.event_coverage.coverage_score ≤ 100 ∧
      0 ≤ m.event_coverage.holiday_coverage_score ∧
      0 ≤ m.alert_metrics.open_alert_score ∧
      m.alert_metrics.open_alert_score ≤ 100 ∧
      0 ≤ m.alert_metrics.alert_duration_score ∧
      m.alert_metrics.alert_duration_score ≤ 100 := by
  dsimp only [scoring_rule]
  obtain ⟨e1, e2, e3, e4⟩ := event_coverage_bounds rule events
  obtain ⟨a1, a2, a3, a4⟩ :=
    test_rule_score_bounds events repository produced_resources num_simulation_times
  exact ⟨e1, e2, e3, e4, a1, a2, a3, a4⟩

/-- C1 is false as stated: with two checks succeeding on a holiday and
one check deferred with a holiday reason, the holiday coverage score of
the run is `2/1 × 100 = 200`, violating the claimed upper bound 100. -/
theorem C1_counterexample :
    (event_coverage ⟨32400, 61200⟩ c1Events).holiday_coverage_score = 200 ∧
      ¬(event_coverage ⟨32400, 61200⟩ c1Events).holiday_coverage_score ≤ 100 := by
  have hs : List.foldl (processEvent ⟨32400, 61200⟩) ⟨0, 0, 0, 0, []⟩ c1Events =
      ⟨3, 2, 1, 2, [⟨"c", 120, false, true, "holiday"⟩]⟩ := by decide
  constructor
  · simp only [event_coverage, hs]
    norm_num
  · simp only [event_coverage, hs]
    norm_num

/-- C2: the final score of every scoring run equals the plain fixed
weight linear combination
`(duration×0.75 + open×0.75 + coverage×1 + holiday×0.5) / 3` of that
run's four sub-scores, with no special-casing of any value. -/
theorem C2_final_score_formula (rule : CovRule) (rule_id : String)
    (events : List CovEvent) (repository : List Alert)
    (produced_resources : List String) (num_simulation_times : ℕ) :
    (scoring_rule rule rule_id events repository produced_resources
        num_simulation_times).final_score =
      ((scoring_rule rule rule_id events repository produced_resources
          num_simulation_times).alert_metrics.alert_duration_score * (3 / 4) +
        (scoring_rule rule rule_id events repository produced_resources
          num_simulation_times).alert_metrics.open_alert_score * (3 / 4) +
        (scoring_rule rule rule_id events repository produced_resources
          num_simulation_times).event_coverage.coverage_score * 1 +
        (scoring_rule rule rule_id events repository produced_resources
          num_simulation_times).event_coverage.holiday_coverage_score * (1 / 2)) / 3 :=
  rfl

/-- C5 is false as stated: in the 09:00-17:00 window scenario the 08:00
and 20:00 events are deferred with the TimeWindow reason but the grace
override (`time + 2h ≥ window start` is one-sided) marks both covered,
so all three events count as covered. -/
theorem C5_counterexample :
    ((event_coverage c5Rule c5Events).events.map
        (fun d => (d.timestamp, d.is_covered))) = [(28800, true), (72000, true)] ∧
      (event_coverage c5Rule c5Events).covered_events = 3 := by
  decide

/-- C5 (amended): in the 09:00-17:00 window scenario the tracer counts
all three events (08:00, 12:00, 20:00) as covered: 12:00 by a
successful check and both out-of-window events through the grace-period
override, whose condition `time + 2h ≥ window-start` also accepts every
instant after the window. -/
theorem C5_all_three_covered :
    (event_coverage c5Rule c5Events).total_events = 3 ∧
      (event_coverage c5Rule c5Events).covered_events = 3 ∧
      (event_coverage c5Rule c5Events).coverage_score = 100 ∧
      ((event_coverage c5Rule c5Events).events.map
        (fun d => d.is_covered)) = [true, true] := by
  refine ⟨by decide, by decide, ?_, by decide⟩
  have hs : List.foldl (processEvent c5Rule) ⟨0, 0, 0, 0, []⟩ c5Events =
      ⟨3, 3, 0, 0,
        [⟨"a", 28800, true, false,
           "covered within 2 hours of start/end time 28800 32400 61200"⟩,
         ⟨"c", 72000, true, false,
           "covered within 2 hours of start/end time 72000 32400 61200"⟩]⟩ := by
    decide
  simp only [event_coverage, hs]
  norm_num

/-- C6: an event deferred with the TimeWindow reason whose reference
time is exactly 2 hours before the rule's daily window start is counted
as covered, and one 2 hours and 1 second before the start of a
well-formed window (start ≤ end) is counted as not covered. -/
theorem C6_grace_boundary :
    (∀ (rule : CovRule) (e : CovEvent) (reason : String),
        e.outcome = .deferred reason →
        hasSubstr "fall within TimeWindow" reason = true →
        e.time = e.dayStart + rule.start_time - 7200 →
        ((event_coverage rule [e]).events.map (fun d => d.is_covered)) = [true]) ∧
    (∀ (rule : CovRule) (e : CovEvent) (reason : String),
        e.outcome = .deferred reason →
        hasSubstr "fall within TimeWindow" reason = true →
        rule.start_time ≤ rule.end_time →
        e.time = e.dayStart + rule.start_time - 7201 →
        ((event_coverage rule [e]).events.map (fun d => d.is_covered)) = [false]) := by
  constructor
  · intro rule e reason hout hsub htime
    obtain ⟨tgt, tm, md, oc⟩ := e
    dsimp only at hout htime
    subst hout
    subst htime
    simp only [event_coverage, List.foldl_cons, List.foldl_nil, processEvent]
    rw [if_pos hsub]
    have hcond : md + rule.start_time - 7200 + 7200 ≥ md + rule.start_time ∨
        md + rule.start_time - 7200 + 7200 ≥ md + rule.end_time :=
      Or.inl (by omega)
    rw [if_pos hcond]
    simp [List.insertionSort, List.orderedInsert]
  · intro rule e reason hout hsub hwin htime
    obtain ⟨tgt, tm, md, oc⟩ := e
    dsimp only at hout htime
    subst hout
    subst htime
    simp only [event_coverage, List.foldl_cons, List.foldl_nil, processEvent]
    rw [if_pos hsub]
    have hcond : ¬(md + rule.start_time - 7201 + 7200 ≥ md + rule.start_time ∨
        md + rule.start_time - 7201 + 7200 ≥ md + rule.end_time) := by omega
    rw [if_neg hcond]
    simp [List.insertionSort, List.orderedInsert]

/-- C6 witness: with window 09:00-17:00 an event at 07:00 (exactly 2h
before the start) is covered and an event at 06:59:59 is not. -/
theorem C6_grace_boundary_witness :
    ((event_coverage ⟨32400, 61200⟩
        [⟨"a", 25200, 0, .deferred "does not fall within TimeWindow"⟩]).events.map
      (fun d => d.is_covered)) = [true] ∧
    ((event_coverage ⟨32400, 61200⟩
        [⟨"a", 25199, 0, .deferred "does not fall within TimeWindow"⟩]).events.map
      (fun d => d.is_covered)) = [false] :=
  ⟨C6_grace_boundary.1 ⟨32400, 61200⟩
      ⟨"a", 25200, 0, .deferred "does not fall within TimeWindow"⟩
      "does not fall within TimeWindow" rfl (by decide) (by decide),
    C6_grace_boundary.2 ⟨32400, 61200⟩
      ⟨"a", 25199, 0, .deferred "does not fall within TimeWindow"⟩
      "does not fall within TimeWindow" rfl (by decide) (by decide) (by decide)⟩

/-- C7 is false as stated: an event whose check succeeds produces no
`EventDetail` at all, so the returned list can be shorter than
`total_events`. -/
theorem C7_counterexample :
    (event_coverage ⟨32400, 61200⟩
        [⟨"a", 0, 0, .success false⟩]).total_events = 1 ∧
      (event_coverage ⟨32400, 61200⟩
        [⟨"a", 0, 0, .success false⟩]).events.length = 0 := by
  decide

/-- C7 (amended): the tracer emits exactly one `EventDetail` per event
whose check is deferred (none for successful checks), and the returned
list is sorted ascending by timestamp. -/
theorem C7_detail_per_deferred_and_sorted (rule : CovRule) (events : List CovEvent) :
    (event_coverage rule events).events.length =
      events.countP (fun e => e.outcome.isDeferred) ∧
    List.Sorted (fun a b => a.timestamp ≤ b.timestamp)
      (event_coverage rule events).events := by
  constructor
  · simp only [event_coverage]
    rw [List.length_insertionSort]
    have h := covState_fold_details_length rule events ⟨0, 0, 0, 0, []⟩
    simpa using h
  · simp only [event_coverage]
    exact List.sorted_insertionSort _ _

/-- C9 is false as stated: a run with no events at all has zero
holiday-eligible events, yet its holiday coverage score is `0`,
not `100`, because the `total == 0` branch zeroes both scores. -/
theorem C9_counterexample :
    (event_coverage ⟨32400, 61200⟩ ([] : List CovEvent)).total_events = 0 ∧
      (event_coverage ⟨32400, 61200⟩ ([] : List CovEvent)).holiday_coverage_score ≠ 100 := by
  decide

/-- C9 (amended): in every coverage run with at least one event and no
event deferred with a holiday reason, the holiday totals are fixed up to
`1/1` and the holiday coverage score is exactly `100`. -/
theorem C9_holiday_vacuity (rule : CovRule) (events : List CovEvent)
    (hne : events ≠ [])
    (hnohol : events.countP (fun e => isHolidayDeferredEvent e) = 0) :
    (event_coverage rule events).holiday_coverage_score = 100 := by
  have hhol : (List.foldl (processEvent rule) ⟨0, 0, 0, 0, []⟩
      events).num_event_in_holiday = 0 := by
    rw [covState_fold_holiday rule events ⟨0, 0, 0, 0, []⟩, hnohol]
  have htot : (List.foldl (processEvent rule) ⟨0, 0, 0, 0, []⟩
      events).total = events.length := by
    rw [covState_fold_total rule events ⟨0, 0, 0, 0, []⟩]
    simp
  have hlen : events.length ≠ 0 := fun hl => hne (List.length_eq_zero.mp hl)
  simp only [event_coverage, hhol, htot]
  rw [if_neg hlen]
  norm_num

/-- C9 witness: one successful non-holiday event gives holiday coverage
score 100. -/
theorem C9_holiday_vacuity_witness :
    (event_coverage ⟨32400, 61200⟩
        [⟨"a", 0, 0, .success false⟩]).holiday_coverage_score = 100 :=
  C9_holiday_vacuity ⟨32400, 61200⟩ [⟨"a", 0, 0, .success false⟩]
    (by decide) (by decide)

/-- C10: `test_rule` on an empty events list returns the all-zero
`AlertMetrics` (both alert sub-scores 0), whereas any run with events
whose alert repository ends up empty scores 100 on both the open-alert
and the alert-duration sub-scores. -/
theorem C10_empty_events_vs_empty_repository :
    (∀ (repository : List Alert) (produced_resources : List String) (n : ℕ),
        test_rule [] repository produced_resources n =
          { total_alerts := 0, total_resources := 0, open_alerts := 0,
            open_alert_score := 0, alert_duration_score := 0,
            simulation_times := 0, alerts := [] }) ∧
    (∀ (e : CovEvent) (events : List CovEvent)
        (produced_resources : List String) (n : ℕ),
        (test_rule (e :: events) [] produced_resources n).open_alert_score = 100 ∧
        (test_rule (e :: events) [] produced_resources n).alert_duration_score = 100) := by
  constructor
  · intro repository produced_resources n
    rfl
  · intro e events produced_resources n
    exact ⟨rfl, rfl⟩



/-- Peeling one point off a uniform grid. -/
theorem uniformGrid_succ (start step : ℤ) (n : ℕ) :
    uniformGrid start step (n + 1) = start :: uniformGrid (start + step) step n := by
  simp only [uniformGrid, List.range_succ_eq_map, List.map_cons, List.map_map,
    Nat.cast_zero, zero_mul, add_zero, List.cons.injEq, true_and]
  refine List.map_congr_left fun k hk => ?_
  simp only [Function.comp_apply]
  push_cast
  ring

/-- The dense-fallback loop from `current` to `end_date` with a positive
step is the uniform grid with `⌊(end_date - current)/step⌋ + 1` points. -/
theorem denseTimes_eq_uniformGrid (current end_date step : ℤ)
    (hstep : 0 < step) (hle : current ≤ end_date) :
    denseTimes current end_date step =
      uniformGrid current step ((end_date - current).toNat / step.toNat + 1) := by
  rw [denseTimes, dif_pos ⟨hle, hstep⟩]
  by_cases h2 : current + step ≤ end_date
  · have hb : 0 < step.toNat := by omega
    have hba : step.toNat ≤ (end_date - current).toNat := by omega
    rw [denseTimes_eq_uniformGrid (current + step) end_date step hstep h2]
    rw [show (end_date - (current + step)).toNat =
        (end_date - current).toNat - step.toNat from by omega]
    rw [Nat.div_eq_sub_div hb hba]
    rw [uniformGrid_succ current step]
  · rw [denseTimes, dif_neg (by omega : ¬(current + step ≤ end_date ∧ 0 < step))]
    rw [Nat.div_eq_of_lt (by omega : (end_date - current).toNat < step.toNat)]
    simp [uniformGrid, List.range_succ]
termination_by (end_date - current).toNat
decreasing_by omega

/-- C8 (amended): whenever `events_per_day > 30` the selector ignores
the rule structure and returns the uniform grid starting at `start_date`
spaced `step` seconds apart with `⌊(end_date - start_date)/step⌋ + 1`
points; the claimed count `⌈(end-start)/step⌉ + 1` overcounts whenever
the range is not a multiple of the step. -/
theorem C8_dense_fallback (rule : SimRule) (start_date end_date : ℤ)
    (events : List ℤ) (step : ℤ) (hstep : 0 < step) (hle : start_date ≤ end_date)
    (hdense : 30 <
      (if Int.fdiv (end_date - start_date) 86400 > 0 then
          (events.length : ℚ) / ((Int.fdiv (end_date - start_date) 86400 : ℤ) : ℚ)
        else (events.length : ℚ))) :
    generate_important_simulation_times rule start_date end_date events step =
      uniformGrid start_date step ((end_date - start_date).toNat / step.toNat + 1) ∧
    (generate_important_simulation_times rule start_date end_date events step).length =
      (end_date - start_date).toNat / step.toNat + 1 := by
  have hmain : generate_important_simulation_times rule start_date end_date events step =
      denseTimes start_date end_date step := by
    simp only [generate_important_simulation_times]
    rw [if_pos hdense]
  rw [hmain, denseTimes_eq_uniformGrid start_date end_date step hstep hle]
  refine ⟨rfl, ?_⟩
  simp [uniformGrid]

/-- C8 witness: 31 events on a one-hour range with the default step
force the dense fallback, giving `⌊3600/1800⌋ + 1 = 3` grid points. -/
theorem C8_dense_fallback_witness :
    generate_important_simulation_times ⟨0, none, none, []⟩ 0 3600 c8Events 1800 =
      [0, 1800, 3600] ∧
    (generate_important_simulation_times ⟨0, none, none, []⟩ 0 3600 c8Events 1800).length = 3 := by
  have h := C8_dense_fallback ⟨0, none, none, []⟩ 0 3600 c8Events 1800
    (by norm_num) (by norm_num)
    (by rw [show Int.fdiv (3600 - 0) 86400 = 0 from by decide]
        norm_num [c8Events])
  obtain ⟨h1, h2⟩ := h
  constructor
  · rw [h1]; decide
  · rw [h2]; decide

/-- C8 is false as stated: on a 2700-second range with step 1800 the
dense fallback returns the 2 instants `[0, 1800]`, while the claimed
count is `⌈2700/1800⌉ + 1 = 3`. -/
theorem C8_counterexample :
    generate_important_simulation_times ⟨0, none, none, []⟩ 0 2700 c8Events 1800 =
      [0, 1800] ∧
    ((generate_important_simulation_times ⟨0, none, none, []⟩ 0 2700
        c8Events 1800).length : ℤ) ≠ ⌈((2700 : ℚ) - 0) / 1800⌉ + 1 := by
  have hmain : generate_important_simulation_times ⟨0, none, none, []⟩ 0 2700 c8Events 1800 =
      denseTimes 0 2700 1800 := by
    simp only [generate_important_simulation_times]
    rw [if_pos]
    rw [show Int.fdiv (2700 - 0) 86400 = 0 from by decide]
    norm_num [c8Events]
  have hd : denseTimes 0 2700 1800 = [0, 1800] := by
    rw [denseTimes_eq_uniformGrid 0 2700 1800 (by norm_num) (by norm_num)]
    decide
  rw [hmain, hd]
  constructor
  · rfl
  · have hceil : ⌈((2700 : ℚ) - 0) / 1800⌉ = 2 := by
      rw [Int.ceil_eq_iff]
      norm_num
    rw [hceil]
    norm_num

/-- One walk step either keeps each detail or appends one whose close
time (when present) is at least its open time, provided the pending
`current_start` is at most the entry's update time. -/
theorem stepEntry_details_mem (res : String)
    (st : DurState × Option ℤ × Option String) (x : HistEntry)
    (hst : ∀ t, st.2.1 = some t → t ≤ x.update_time) :
    ∀ d ∈ (stepEntry res st x).1.alert_details,
      d ∈ st.1.alert_details ∨ ∀ c, d.close_time = some c → d.open_time ≤ c := by
  obtain ⟨ds, cs, csev⟩ := st
  cases cs with
  | none =>
      simp only [stepEntry]
      by_cases hsev : x.severity = "ok"
      · rw [if_neg (by simp [hsev])]
        by_cases hres : res ∈ ds.resources
        · rw [if_pos hres]
          intro d hd
          exact Or.inl hd
        · rw [if_neg hres]
          intro d hd
          rcases List.mem_append.mp hd with h | h
          · exact Or.inl h
          · right
            intro c hc
            simp only [List.mem_singleton] at h
            subst h
            dsimp only at hc
            simp only [Option.some.injEq] at hc
            dsimp only
            omega
      · rw [if_pos hsev]
        intro d hd
        exact Or.inl hd
  | some t =>
      simp only [stepEntry]
      by_cases hsev : x.severity = "ok"
      · rw [if_pos hsev]
        intro d hd
        rcases List.mem_append.mp hd with h | h
        · exact Or.inl h
        · right
          intro c hc
          simp only [List.mem_singleton] at h
          subst h
          dsimp only at hc
          simp only [Option.some.injEq] at hc
          dsimp only
          have := hst t rfl
          omega
      · rw [if_neg hsev]
        intro d hd
        exact Or.inl hd

/-- After one walk step the pending `current_start` is cleared, set to
the entry's own update time, or carried unchanged. -/
theorem stepEntry_cs (res : String) (st : DurState × Option ℤ × Option String)
    (x : HistEntry) :
    (stepEntry res st x).2.1 = none ∨
      (stepEntry res st x).2.1 = some x.update_time ∨
      (stepEntry res st x).2.1 = st.2.1 := by
  obtain ⟨ds, cs, csev⟩ := st
  cases cs <;> simp only [stepEntry] <;> split_ifs <;> simp

/-- Walking a sorted history preserves the invariant that every
recorded close time is at least its open time. -/
theorem stepEntry_fold_closed (res : String) :
    ∀ (hs : List HistEntry) (ds : DurState) (cs : Option ℤ) (csev : Option String),
      List.Sorted (fun a b : HistEntry => a.update_time ≤ b.update_time) hs →
      (∀ t, cs = some t → ∀ x ∈ hs, t ≤ x.update_time) →
      (∀ d ∈ ds.alert_details, ∀ c, d.close_time = some c → d.open_time ≤ c) →
      ∀ d ∈ (hs.foldl (stepEntry res) (ds, cs, csev)).1.alert_details,
        ∀ c, d.close_time = some c → d.open_time ≤ c := by
  intro hs
  induction hs with
  | nil => intro ds cs csev _ _ hds; simpa using hds
  | cons x xs ih =>
      intro ds cs csev hsort hcs hds
      rw [List.foldl_cons]
      rw [List.sorted_cons] at hsort
      obtain ⟨hx, hxs⟩ := hsort
      rcases hsE : stepEntry res (ds, cs, csev) x with ⟨ds2, cs2, csev2⟩
      apply ih ds2 cs2 csev2 hxs
      · intro t ht y hy
        rcases stepEntry_cs res (ds, cs, csev) x with h | h | h <;>
          rw [hsE] at h <;> dsimp only at h
        · rw [h] at ht; cases ht
        · rw [h] at ht
          simp only [Option.some.injEq] at ht
          subst ht
          exact hx y hy
        · rw [h] at ht
          exact hcs t ht y (List.mem_cons_of_mem x hy)
      · intro d hd
        have hmem := stepEntry_details_mem res (ds, cs, csev) x
          (fun t ht => hcs t ht x (List.mem_cons_self x xs)) d
        rw [hsE] at hmem
        dsimp only at hmem
        rcases hmem hd with h | h
        · exact hds d h
        · exact h

/-- Processing one alert preserves the close-after-open invariant: the
still-open interval emitted at the end has no close time at all. -/
theorem processAlert_closed (ds : DurState) (alert : Alert)
    (hds : ∀ d ∈ ds.alert_details, ∀ c, d.close_time = some c → d.open_time ≤ c) :
    ∀ d ∈ (processAlert ds alert).alert_details,
      ∀ c, d.close_time = some c → d.open_time ≤ c := by
  simp only [processAlert]
  split_ifs with hh
  · exact hds
  · have hsorted : List.Sorted (fun a b : HistEntry => a.update_time ≤ b.update_time)
        (alert.history.insertionSort (fun a b => a.update_time ≤ b.update_time)) :=
      List.sorted_insertionSort _ _
    have hfold := stepEntry_fold_closed alert.resource
      (alert.history.insertionSort (fun a b => a.update_time ≤ b.update_time))
      ds none none hsorted (by intro t ht; cases ht) hds
    rcases hcs : ((alert.history.insertionSort
        (fun a b => a.update_time ≤ b.update_time)).foldl
          (stepEntry alert.resource) (ds, none, none)).2.1 with _ | t
    · rcases hlast : (alert.history.insertionSort
          (fun a b => a.update_time ≤ b.update_time)).getLast? with _ | le
      · simp only [hcs, hlast]
        exact hfold
      · simp only [hcs, hlast]
        exact hfold
    · rcases hlast : (alert.history.insertionSort
          (fun a b => a.update_time ≤ b.update_time)).getLast? with _ | le
      · simp only [hcs, hlast]
        exact hfold
      · simp only [hcs, hlast]
        split_ifs with hsev
        · intro d hd
          rcases List.mem_append.mp hd with h | h
          · exact hfold d h
          · intro c hc
            simp only [List.mem_singleton] at h
            subst h
            dsimp only at hc
            cases hc
        · exact hfold

/-- Folding the analyzer over all alerts preserves the close-after-open
invariant of the detail list. -/
theorem processAlert_fold_closed :
    ∀ (alerts : List Alert) (ds : DurState),
      (∀ d ∈ ds.alert_details, ∀ c, d.close_time = some c → d.open_time ≤ c) →
      ∀ d ∈ (alerts.foldl processAlert ds).alert_details,
        ∀ c, d.close_time = some c → d.open_time ≤ c := by
  intro alerts
  induction alerts with
  | nil => intro ds hds; simpa using hds
  | cons a as ih =>
      intro ds hds
      rw [List.foldl_cons]
      exact ih _ (processAlert_closed ds a hds)

/-- C4 (amended): every `AlertDetail` returned by the analyzer whose
close time is present satisfies `open_time ≤ close_time`; the claimed
strict inequality fails on the zero-duration healthy records, which
close at their own open instant. -/
theorem C4_close_not_before_open (alerts : List Alert) (d : AlertDetail)
    (hmem : d ∈ (calculate_alert_duration alerts).2.1)
    (c : ℤ) (hc : d.close_time = some c) : d.open_time ≤ c := by
  simp only [calculate_alert_duration] at hmem
  by_cases h1 : alerts = []
  · rw [if_pos h1] at hmem
    simp at hmem
  · rw [if_neg h1] at hmem
    by_cases h2 : (alerts.foldl processAlert ⟨[], [], 0, []⟩).alert_durations = []
    · rw [if_pos h2] at hmem
      dsimp only at hmem
      exact processAlert_fold_closed alerts ⟨[], [], 0, []⟩ (by simp) d hmem c hc
    · rw [if_neg h2] at hmem
      dsimp only at hmem
      have hperm := List.perm_insertionSort
        (fun a b : AlertDetail => a.open_time ≤ b.open_time)
        (alerts.foldl processAlert ⟨[], [], 0, []⟩).alert_details
      have hmem2 := hperm.mem_iff.mp hmem
      exact processAlert_fold_closed alerts ⟨[], [], 0, []⟩ (by simp) d hmem2 c hc

/-- C4 is false as stated: a history consisting of a single "ok" entry
yields the zero-duration healthy record, whose close time equals — is
not strictly greater than — its open time. -/
theorem C4_counterexample :
    (calculate_alert_duration [⟨"r", [⟨5, "ok"⟩]⟩]).2.1 =
      [{ resource := "r", severity := "ok", open_time := 5,
         close_time := some 5, duration := some 0 }] ∧
      ¬((5 : ℤ) < 5) := by
  constructor
  · decide
  · decide

/-- C4 witness: the zero-duration record of the single-"ok" history is
in the output and satisfies the amended inequality. -/
theorem C4_close_not_before_open_witness :
    ({ resource := "r", severity := "ok", open_time := 5, close_time := some 5,
        duration := some 0 } : AlertDetail) ∈
      (calculate_alert_duration [⟨"r", [⟨5, "ok"⟩]⟩]).2.1 ∧ (5 : ℤ) ≤ 5 :=
  ⟨by decide,
    C4_close_not_before_open [⟨"r", [⟨5, "ok"⟩]⟩]
      { resource := "r", severity := "ok", open_time := 5, close_time := some 5,
        duration := some 0 } (by decide) 5 rfl⟩

/-- C3 is false as stated: the synthetic ok/critical/ok history yields
two `AlertDetail`s — the zero-duration healthy record plus the closed
interval — not exactly one. -/
theorem C3_counterexample :
    (calculate_alert_duration
        [⟨"r", [⟨0, "ok"⟩, ⟨10, "critical"⟩, ⟨20, "ok"⟩]⟩]).2.1 =
      [{ resource := "r", severity := "ok", open_time := 0,
         close_time := some 0, duration := some 0 },
       { resource := "r", severity := "critical", open_time := 10,
         close_time := some 20, duration := some ((10 : ℤ) : ℚ) }] ∧
      (calculate_alert_duration
        [⟨"r", [⟨0, "ok"⟩, ⟨10, "critical"⟩, ⟨20, "ok"⟩]⟩]).2.1.length ≠ 1 := by
  constructor
  · decide
  · decide

/-- C3 (amended): for one resource with history
`[(t0,ok), (t1,critical), (t2,ok)]` and `t0 < t1 < t2`, the analyzer
yields exactly two details — the zero-duration healthy record at `t0`
and the closed interval with `open_time = t1`, `close_time = t2`,
`duration = t2 - t1` — and zero open alerts. -/
theorem C3_interval_closure (res : String) (t0 t1 t2 : ℤ)
    (h01 : t0 < t1) (h12 : t1 < t2) :
    (calculate_alert_duration
        [⟨res, [⟨t0, "ok"⟩, ⟨t1, "critical"⟩, ⟨t2, "ok"⟩]⟩]).2.1 =
      [{ resource := res, severity := "ok", open_time := t0,
         close_time := some t0, duration := some 0 },
       { resource := res, severity := "critical", open_time := t1,
         close_time := some t2, duration := some ((t2 - t1 : ℤ) : ℚ) }] ∧
      (calculate_alert_duration
        [⟨res, [⟨t0, "ok"⟩, ⟨t1, "critical"⟩, ⟨t2, "ok"⟩]⟩]).2.2 = 0 := by
  have hsort : List.Sorted (fun a b : HistEntry => a.update_time ≤ b.update_time)
      ([⟨t0, "ok"⟩, ⟨t1, "critical"⟩, ⟨t2, "ok"⟩] : List HistEntry) := by
    simp [List.sorted_cons]
    omega
  have hins := List.Sorted.insertionSort_eq hsort
  have hfold : List.foldl (stepEntry res) (⟨[], [], 0, []⟩, none, none)
      ([⟨t0, "ok"⟩, ⟨t1, "critical"⟩, ⟨t2, "ok"⟩] : List HistEntry) =
      (⟨[(res, ((t2 - t1 : ℤ) : ℚ))],
        [{ resource := res, severity := "ok", open_time := t0,
           close_time := some t0, duration := some 0 },
         { resource := res, severity := "critical", open_time := t1,
           close_time := some t2, duration := some ((t2 - t1 : ℤ) : ℚ) }],
        0, [res]⟩, none, some "critical") := by
    simp [stepEntry, addResource]
  have hPA : processAlert (⟨[], [], 0, []⟩ : DurState)
      ⟨res, [⟨t0, "ok"⟩, ⟨t1, "critical"⟩, ⟨t2, "ok"⟩]⟩ =
      ⟨[(res, ((t2 - t1 : ℤ) : ℚ))],
        [{ resource := res, severity := "ok", open_time := t0,
           close_time := some t0, duration := some 0 },
         { resource := res, severity := "critical", open_time := t1,
           close_time := some t2, duration := some ((t2 - t1 : ℤ) : ℚ) }],
        0, [res]⟩ := by
    simp only [processAlert]
    rw [if_neg (by simp : ¬([⟨t0, "ok"⟩, ⟨t1, "critical"⟩, ⟨t2, "ok"⟩] :
        List HistEntry) = [])]
    rw [hins, hfold]
  constructor
  · simp only [calculate_alert_duration, List.foldl_cons, List.foldl_nil, hPA]
    simp [List.insertionSort, List.orderedInsert, h01.le]
  · simp only [calculate_alert_duration, List.foldl_cons, List.foldl_nil, hPA]
    simp

/-- C3 witness: the interval-closure theorem at the concrete history
`[(1,ok), (3,critical), (7,ok)]`. -/
theorem C3_interval_closure_witness :
    (calculate_alert_duration [⟨"w", [⟨1, "ok"⟩, ⟨3, "critical"⟩, ⟨7, "ok"⟩]⟩]).2.1 =
      [{ resource := "w", severity := "ok", open_time := 1,
         close_time := some 1, duration := some 0 },
       { resource := "w", severity := "critical", open_time := 3,
         close_time := some 7, duration := some ((7 - 3 : ℤ) : ℚ) }] ∧
      (calculate_alert_duration [⟨"w", [⟨1, "ok"⟩, ⟨3, "critical"⟩, ⟨7, "ok"⟩]⟩]).2.2 = 0 :=
  C3_interval_closure "w" 1 3 7 (by norm_num) (by norm_num)

end RuleAuditor
